import Mathlib

/-!
Verification of a daily-message Telegram bot (`src/main.py`).

The bot keeps, for every chat id, a per-chat store (a dict with optional keys
`tz`, `hour`, `minute`, `index`), a job queue with at most one named daily job
per chat, and a fixed message catalog loaded at startup.  We embed the store as
a record of `Option` fields (a missing dict key is `none`), the job queue as
`Option (List Job)` (the queue object can be `None`, in which case scheduling
degrades to a no-op), and the delivery callback, command handlers and startup
hook as pure state transformers.  The transport send is modelled by a boolean
outcome: `true` means the `await bot.send_message` call returned, `false` means
it raised, aborting the rest of the handler.
-/

namespace YearlyBot

/-- `DEFAULT_TZ = "Europe/Minsk"` in the source. -/
def DEFAULT_TZ : String := "Europe/Minsk"

/-- Hour of `DEFAULT_TIME = time(10, 0)`. -/
def DEFAULT_HOUR : Nat := 10

/-- Minute of `DEFAULT_TIME = time(10, 0)`. -/
def DEFAULT_MINUTE : Nat := 0

/-- The terminal notice sent by `send_message_job` once the catalog is exhausted. -/
def FINAL_NOTICE : String := "Это было последнее сообщение. Год завершён. Чтобы начать заново — /reset."

/-- Python `str.strip()`: remove leading and trailing whitespace. -/
def strip (s : String) : String :=
  String.mk (((s.data.dropWhile Char.isWhitespace).reverse.dropWhile Char.isWhitespace).reverse)

/-- `load_messages`: read the lines of `messages.txt`, strip each, keep the
non-blank ones.  The file is `none` when missing (`FileNotFoundError`); an
all-blank file raises `ValueError`.  `Except.error` models a raised exception. -/
def load_messages (file : Option (List String)) : Except String (List String) :=
  match file with
  | none => .error "FileNotFoundError"
  | some lines =>
      let msgs := (lines.map strip).filter (fun s => s != "")
      if msgs = [] then .error "ValueError" else .ok msgs

/-- One chat's store `context.chat_data[chat_id]`: a dict whose keys `tz`,
`hour`, `minute`, `index` may each be absent (`none`). -/
structure ChatData where
  tz : Option String
  hour : Option Nat
  minute : Option Nat
  index : Option Nat
deriving DecidableEq, Repr

/-- The empty dict; Python `not chat_store` is true exactly on this value. -/
def emptyChatData : ChatData := ⟨none, none, none, none⟩

/-- `get_user_tz`: look up `data.get("tz", DEFAULT_TZ)` in the timezone
database `db` (`ZoneInfo(name)` succeeds iff `db name = true`); on failure fall
back to `ZoneInfo(DEFAULT_TZ)`.  The result is `none` exactly when even the
fallback construction raises, i.e. when the exception escapes the function. -/
def get_user_tz (db : String → Bool) (data : ChatData) : Option String :=
  let tz_name := data.tz.getD DEFAULT_TZ
  match (if db tz_name then some tz_name else none : Option String) with
  | some z => some z
  | none => if db DEFAULT_TZ then some DEFAULT_TZ else none

/-- The `time(hour, minute, tzinfo)` value handed to `run_daily`. -/
structure SendTime where
  hour : Nat
  minute : Nat
  tz : String
deriving DecidableEq, Repr

/-- `get_user_time`: delivery time of day with the user's zone.  When
`get_user_tz` would raise (the default zone missing from the database — never
the case in deployment) we take the default name; no claim depends on the
stored time value. -/
def get_user_time (db : String → Bool) (data : ChatData) : SendTime :=
  { hour := data.hour.getD DEFAULT_HOUR
    minute := data.minute.getD DEFAULT_MINUTE
    tz := (get_user_tz db data).getD DEFAULT_TZ }

/-- `job_name(chat_id) = f"daily-{chat_id}"`. -/
def job_name (chat_id : Int) : String := "daily-" ++ toString chat_id

/-- A queued job, as armed by `job_queue.run_daily(send_message_job, time=t,
chat_id=chat_id, name=job_name(chat_id), data=...)`. -/
structure Job where
  name : String
  time : SendTime
  chat_id : Int
  data : Option Int
deriving DecidableEq, Repr

/-- Core of `cancel_existing_job`: `schedule_removal` on every job returned by
`get_jobs_by_name(job_name(chat_id))`. -/
def cancel_jobs (q : List Job) (chat_id : Int) : List Job :=
  q.filter (fun j => j.name != job_name chat_id)

/-- `cancel_existing_job`: a no-op (with a warning) when the job queue is
`None`, otherwise removes every job named `job_name(chat_id)`. -/
def cancel_existing_job (jq : Option (List Job)) (chat_id : Int) : Option (List Job) :=
  match jq with
  | none => none
  | some q => some (cancel_jobs q chat_id)

/-- `schedule_daily_job`: a no-op when the job queue is `None`; otherwise
cancel every existing job with this chat's name, then arm one new daily job. -/
def schedule_daily_job (db : String → Bool) (jq : Option (List Job)) (chat_id : Int)
    (data : ChatData) : Option (List Job) :=
  match jq with
  | none => none
  | some q =>
      some (cancel_jobs q chat_id ++
        [{ name := job_name chat_id, time := get_user_time db data,
           chat_id := chat_id, data := some chat_id }])

/-- Number of live jobs carrying a given name (0 when the queue is `None`). -/
def jobs_named (n : String) (jq : Option (List Job)) : Nat :=
  ((jq.getD []).filter (fun j => j.name == n)).length

/-- First-match lookup in the `chat_data` mapping. -/
def lookupChat (m : List (Int × ChatData)) (cid : Int) : Option ChatData :=
  match m with
  | [] => none
  | (k, v) :: rest => if k = cid then some v else lookupChat rest cid

/-- Write a chat's store back into the mapping (replace the first binding, or
append a new one). -/
def setChat (m : List (Int × ChatData)) (cid : Int) (d : ChatData) : List (Int × ChatData) :=
  match m with
  | [] => [(cid, d)]
  | (k, v) :: rest => if k = cid then (k, d) :: rest else (k, v) :: setChat rest cid d

/-- `context.chat_data` for a handler: the chat's store, auto-created empty
when absent. -/
def getChat (m : List (Int × ChatData)) (cid : Int) : ChatData :=
  (lookupChat m cid).getD emptyChatData

/-- The whole bot state: the persisted `chat_data` mapping and the job queue. -/
structure BotState where
  chat_data : List (Int × ChatData)
  job_queue : Option (List Job)
deriving DecidableEq, Repr

/-- `send_message_job`, the delivery callback.  `job_data` is
`(context.job.data or ...).get("chat_id")`; `ok` is the transport outcome of
whichever `send_message` call the handler reaches.  Returns the new state and
the list of messages actually delivered in this invocation. -/
def send_message_job (msgs : List String) (job_data : Option Int) (ok : Bool)
    (st : BotState) : BotState × List (Int × String) :=
  match job_data with
  | none => (st, [])
  | some chat_id =>
    match lookupChat st.chat_data chat_id with
    | none => (st, [])
    | some chat_store =>
      if chat_store = emptyChatData then (st, [])
      else
        let idx := chat_store.index.getD 0
        if msgs.length ≤ idx then
          let st1 : BotState :=
            { st with job_queue := cancel_existing_job st.job_queue chat_id }
          if ok then (st1, [(chat_id, FINAL_NOTICE)]) else (st1, [])
        else
          if ok then
            ({ st with chat_data :=
                 setChat st.chat_data chat_id { chat_store with index := some (idx + 1) } },
             [(chat_id, msgs.getD idx "")])
          else (st, [])

/-- The four `setdefault` calls of the `start` handler. -/
def start_defaults (d : ChatData) : ChatData :=
  { tz := some (d.tz.getD DEFAULT_TZ)
    hour := some (d.hour.getD DEFAULT_HOUR)
    minute := some (d.minute.getD DEFAULT_MINUTE)
    index := some (d.index.getD 0) }

/-- `/start`: apply the defaults to absent keys only, then (re)schedule. -/
def start_cmd (db : String → Bool) (cid : Int) (st : BotState) : BotState :=
  let d := start_defaults (getChat st.chat_data cid)
  { chat_data := setChat st.chat_data cid d
    job_queue := schedule_daily_job db st.job_queue cid d }

/-- `/settime HH:MM`: on a valid time, store `hour`/`minute` and reschedule;
otherwise reply with an error and change nothing. -/
def settime_cmd (db : String → Bool) (cid : Int) (hh mm : Nat) (st : BotState) : BotState :=
  if hh ≤ 23 ∧ mm ≤ 59 then
    let d := { getChat st.chat_data cid with hour := some hh, minute := some mm }
    { chat_data := setChat st.chat_data cid d
      job_queue := schedule_daily_job db st.job_queue cid d }
  else st

/-- `/settz NAME`: on a zone accepted by the database, store it and
reschedule; otherwise change nothing. -/
def settz_cmd (db : String → Bool) (cid : Int) (tzname : String) (st : BotState) : BotState :=
  if db tzname then
    let d := { getChat st.chat_data cid with tz := some tzname }
    { chat_data := setChat st.chat_data cid d
      job_queue := schedule_daily_job db st.job_queue cid d }
  else st

/-- `/pause`: cancel this chat's job; the store is untouched. -/
def pause_cmd (cid : Int) (st : BotState) : BotState :=
  { st with job_queue := cancel_existing_job st.job_queue cid }

/-- `/resume`: reschedule from the current store. -/
def resume_cmd (db : String → Bool) (cid : Int) (st : BotState) : BotState :=
  { st with job_queue := schedule_daily_job db st.job_queue cid (getChat st.chat_data cid) }

/-- `/reset`: set the cursor back to 0; the job queue is untouched. -/
def reset_cmd (cid : Int) (st : BotState) : BotState :=
  let d := { getChat st.chat_data cid with index := some 0 }
  { st with chat_data := setChat st.chat_data cid d }

/-- Fold of `schedule_daily_job` over a list of entries (the loop bodies of
`on_startup`, and arbitrary schedule-call sequences). -/
def schedule_all (db : String → Bool) (entries : List (Int × ChatData))
    (jq : Option (List Job)) : Option (List Job) :=
  entries.foldl (fun acc p => schedule_daily_job db acc p.1 p.2) jq

/-- `on_startup`: for every persisted `(chat_id, chat_store)` entry, call
`schedule_daily_job` (every stored entry is a dict in this model, so the
`isinstance` guard always passes).  Note the loop has no cursor test. -/
def on_startup (db : String → Bool) (st : BotState) : BotState :=
  { st with job_queue := schedule_all db st.chat_data st.job_queue }

/-- All events that drive the system. -/
inductive Cmd where
  | start (cid : Int)
  | settime (cid : Int) (hh mm : Nat)
  | settz (cid : Int) (tzname : String)
  | pause (cid : Int)
  | resume (cid : Int)
  | reset (cid : Int)
  | fire (jd : Option Int) (ok : Bool)
  | startup
deriving DecidableEq, Repr

/-- One step of the system. -/
def step (msgs : List String) (db : String → Bool) : Cmd → BotState → BotState
  | .start cid, st => start_cmd db cid st
  | .settime cid hh mm, st => settime_cmd db cid hh mm st
  | .settz cid tzname, st => settz_cmd db cid tzname st
  | .pause cid, st => pause_cmd cid st
  | .resume cid, st => resume_cmd db cid st
  | .reset cid, st => reset_cmd cid st
  | .fire jd ok, st => (send_message_job msgs jd ok st).1
  | .startup, st => on_startup db st

/-- A fresh deployment: no persisted chats, an empty (but present) job queue. -/
def initState : BotState := { chat_data := [], job_queue := some [] }

/-- States reachable from a fresh deployment by any event sequence. -/
inductive Reachable (msgs : List String) (db : String → Bool) : BotState → Prop where
  | init : Reachable msgs db initState
  | step : ∀ {st} (c : Cmd), Reachable msgs db st → Reachable msgs db (step msgs db c st)

/-! Helper lemmas about job counting and the chat-data mapping. -/

lemma jobs_named_none (n : String) : jobs_named n none = 0 := rfl

lemma cancel_jobs_count (q : List Job) (cid : Int) (n : String) :
    jobs_named n (some (cancel_jobs q cid)) =
      if n = job_name cid then 0 else jobs_named n (some q) := by
  induction q with
  | nil => simp [cancel_jobs, jobs_named]
  | cons j rest ih =>
    by_cases h1 : j.name = job_name cid <;> by_cases h2 : j.name = n <;>
      simp_all [cancel_jobs, jobs_named, List.filter_cons, h1, h2]

lemma schedule_count (db : String → Bool) (q : List Job) (cid : Int) (d : ChatData)
    (n : String) :
    jobs_named n (schedule_daily_job db (some q) cid d) =
      if n = job_name cid then 1 else jobs_named n (some q) := by
  have h := cancel_jobs_count q cid n
  by_cases hn : n = job_name cid
  · simp_all [schedule_daily_job, jobs_named, List.filter_append, List.filter_cons]
  · have hn' : ¬job_name cid = n := fun hh => hn hh.symm
    simp_all [schedule_daily_job, jobs_named, List.filter_append, List.filter_cons, hn']

lemma schedule_count_le (db : String → Bool) (jq : Option (List Job)) (cid : Int)
    (d : ChatData) (n : String) (h : jobs_named n jq ≤ 1) :
    jobs_named n (schedule_daily_job db jq cid d) ≤ 1 := by
  cases jq with
  | none => simp [schedule_daily_job, jobs_named]
  | some q =>
    rw [schedule_count]
    split
    · exact le_refl 1
    · exact h

lemma schedule_all_count_le (db : String → Bool) (entries : List (Int × ChatData))
    (jq : Option (List Job)) (n : String) (h : jobs_named n jq ≤ 1) :
    jobs_named n (schedule_all db entries jq) ≤ 1 := by
  induction entries generalizing jq with
  | nil => exact h
  | cons p rest ih =>
    exact ih _ (schedule_count_le db jq p.1 p.2 n h)

lemma schedule_count_ge (db : String → Bool) (jq : Option (List Job)) (cid : Int)
    (d : ChatData) (n : String) (h : 1 ≤ jobs_named n jq) :
    1 ≤ jobs_named n (schedule_daily_job db jq cid d) := by
  cases jq with
  | none => simp [jobs_named] at h
  | some q =>
    rw [schedule_count]
    split
    · exact le_refl 1
    · exact h

lemma schedule_all_count_ge (db : String → Bool) (entries : List (Int × ChatData))
    (jq : Option (List Job)) (n : String) (h : 1 ≤ jobs_named n jq) :
    1 ≤ jobs_named n (schedule_all db entries jq) := by
  induction entries generalizing jq with
  | nil => exact h
  | cons p rest ih =>
    exact ih _ (schedule_count_ge db jq p.1 p.2 n h)

lemma schedule_all_mem_ge (db : String → Bool) (entries : List (Int × ChatData))
    (q : List Job) (cid : Int) (d : ChatData) (hmem : (cid, d) ∈ entries) :
    1 ≤ jobs_named (job_name cid) (schedule_all db entries (some q)) := by
  induction entries generalizing q with
  | nil => cases hmem
  | cons p rest ih =>
    rcases List.mem_cons.mp hmem with h | h
    · subst h
      have h1 : jobs_named (job_name cid)
          (schedule_daily_job db (some q) cid d) = 1 := by
        rw [schedule_count]; simp
      show 1 ≤ jobs_named (job_name cid)
          (schedule_all db rest (schedule_daily_job db (some q) cid d))
      exact schedule_all_count_ge db rest _ _ (le_of_eq h1.symm)
    · show 1 ≤ jobs_named (job_name cid)
          (schedule_all db rest (schedule_daily_job db (some q) p.1 p.2))
      exact ih _ h

lemma lookupChat_setChat (m : List (Int × ChatData)) (c c' : Int) (d : ChatData) :
    lookupChat (setChat m c d) c' = if c' = c then some d else lookupChat m c' := by
  induction m with
  | nil =>
    by_cases h : c' = c
    · simp [setChat, lookupChat, h]
    · simp only [setChat, lookupChat, if_neg h]
      rw [if_neg (fun hh => h hh.symm)]
  | cons kv rest ih =>
    obtain ⟨k, v⟩ := kv
    by_cases hk : k = c <;> by_cases hc : c' = k <;>
      simp_all [setChat, lookupChat, eq_comm]

/-! The cursor-bound invariant and its preservation by every event. -/

/-- Every stored cursor is at most the catalog length. -/
def CursorInv (msgs : List String) (m : List (Int × ChatData)) : Prop :=
  ∀ cid d, lookupChat m cid = some d → d.index.getD 0 ≤ msgs.length

lemma cursorInv_setChat (msgs : List String) (m : List (Int × ChatData)) (c : Int)
    (d' : ChatData) (hInv : CursorInv msgs m) (hd' : d'.index.getD 0 ≤ msgs.length) :
    CursorInv msgs (setChat m c d') := by
  intro cid d hl
  rw [lookupChat_setChat] at hl
  split at hl
  · cases hl; exact hd'
  · exact hInv cid d hl

lemma getChat_cursor_le (msgs : List String) (m : List (Int × ChatData)) (cid : Int)
    (hInv : CursorInv msgs m) : (getChat m cid).index.getD 0 ≤ msgs.length := by
  unfold getChat
  cases h : lookupChat m cid with
  | none => simp [emptyChatData]
  | some d => simpa using hInv cid d h

lemma cursorInv_fire (msgs : List String) (jd : Option Int) (ok : Bool) (st : BotState)
    (hInv : CursorInv msgs st.chat_data) :
    CursorInv msgs ((send_message_job msgs jd ok st).1).chat_data := by
  cases jd with
  | none => exact hInv
  | some cid =>
    cases hl : lookupChat st.chat_data cid with
    | none => simp only [send_message_job, hl]; exact hInv
    | some store =>
      by_cases he : store = emptyChatData
      · simp only [send_message_job, hl, if_pos he]; exact hInv
      · by_cases hge : msgs.length ≤ store.index.getD 0
        · cases ok <;> simp only [send_message_job, hl, if_neg he, if_pos hge] <;> exact hInv
        · cases ok
          · simp only [send_message_job, hl, if_neg he, if_neg hge]; exact hInv
          · simp only [send_message_job, hl, if_neg he, if_neg hge]
            exact cursorInv_setChat msgs st.chat_data cid _ hInv
              (Nat.succ_le_of_lt (Nat.lt_of_not_le hge))

lemma cursorInv_step (msgs : List String) (db : String → Bool) (c : Cmd) (st : BotState)
    (hInv : CursorInv msgs st.chat_data) :
    CursorInv msgs ((step msgs db c st)).chat_data := by
  cases c with
  | start cid =>
    apply cursorInv_setChat msgs st.chat_data cid _ hInv
    simpa [start_defaults] using getChat_cursor_le msgs st.chat_data cid hInv
  | settime cid hh mm =>
    dsimp only [step, settime_cmd]
    split
    · apply cursorInv_setChat msgs st.chat_data cid _ hInv
      simpa using getChat_cursor_le msgs st.chat_data cid hInv
    · exact hInv
  | settz cid tzname =>
    dsimp only [step, settz_cmd]
    split
    · apply cursorInv_setChat msgs st.chat_data cid _ hInv
      simpa using getChat_cursor_le msgs st.chat_data cid hInv
    · exact hInv
  | pause cid => exact hInv
  | resume cid => exact hInv
  | reset cid =>
    apply cursorInv_setChat msgs st.chat_data cid _ hInv
    simp
  | fire jd ok => exact cursorInv_fire msgs jd ok st hInv
  | startup => exact hInv

lemma reachable_cursorInv (msgs : List String) (db : String → Bool) (st : BotState)
    (h : Reachable msgs db st) : CursorInv msgs st.chat_data := by
  induction h with
  | init => intro cid d hl; cases hl
  | step c _ ih => exact cursorInv_step msgs db c _ ih

/-! Claim theorems. -/

/-- C1: for every subscriber whose stored cursor (the `index` field) is
strictly less than the catalog length, a single successful fire sends exactly
the catalog entry at the cursor to that subscriber — and nothing else — and
leaves the stored cursor equal to its old value plus one. -/
theorem fire_sends_cursor_entry (msgs : List String) (st : BotState) (cid : Int)
    (store : ChatData) (idx : Nat) (hl : lookupChat st.chat_data cid = some store)
    (hidx : store.index = some idx) (hlt : idx < msgs.length) :
    (send_message_job msgs (some cid) true st).2 = [(cid, msgs.get ⟨idx, hlt⟩)] ∧
    lookupChat ((send_message_job msgs (some cid) true st).1).chat_data cid =
      some ({ store with index := some (idx + 1) }) := by
  have he : ¬ store = emptyChatData := by
    intro h; rw [h] at hidx; cases hidx
  have hgetd : store.index.getD 0 = idx := by rw [hidx]; rfl
  have hge : ¬ msgs.length ≤ idx := Nat.not_le_of_lt hlt
  refine ⟨?_, ?_⟩ <;>
    simp [send_message_job, hl, he, hgetd, hge, lookupChat_setChat,
      List.getD_eq_getElem msgs "" hlt, List.getElem?_eq_getElem hlt]

/-- Witness for C1 at a concrete state: catalog `["a", "b"]`, cursor 0. -/
theorem fire_sends_cursor_entry_witness :
    (send_message_job ["a", "b"] (some 5) true
        { chat_data := [(5, ⟨none, none, none, some 0⟩)], job_queue := some [] }).2
      = [((5 : Int), "a")] ∧
    lookupChat ((send_message_job ["a", "b"] (some 5) true
        { chat_data := [(5, ⟨none, none, none, some 0⟩)], job_queue := some [] }).1).chat_data 5
      = some ⟨none, none, none, some 1⟩ := by
  have h := fire_sends_cursor_entry ["a", "b"]
    { chat_data := [(5, ⟨none, none, none, some 0⟩)], job_queue := some [] }
    5 ⟨none, none, none, some 0⟩ 0 (by decide) rfl (by decide)
  simpa using h

/-- C4: for every subscriber whose stored cursor is at or past the catalog
length, a fire sends only the terminal completion notice, cancels the
subscriber's timer (no job with its name remains), and leaves the whole
`chat_data` mapping — in particular the stored cursor — unchanged. -/
theorem fire_completed_sends_final_notice (msgs : List String) (st : BotState)
    (cid : Int) (store : ChatData) (idx : Nat)
    (hl : lookupChat st.chat_data cid = some store)
    (hidx : store.index = some idx) (hge : msgs.length ≤ idx) :
    (send_message_job msgs (some cid) true st).2 = [(cid, FINAL_NOTICE)] ∧
    jobs_named (job_name cid) ((send_message_job msgs (some cid) true st).1).job_queue = 0 ∧
    ((send_message_job msgs (some cid) true st).1).chat_data = st.chat_data := by
  have he : ¬ store = emptyChatData := by
    intro h; rw [h] at hidx; cases hidx
  have hgetd : store.index.getD 0 = idx := by rw [hidx]; rfl
  have hge' : msgs.length ≤ store.index.getD 0 := by rw [hgetd]; exact hge
  simp only [send_message_job, hl, if_neg he, if_pos hge', if_pos rfl]
  refine ⟨rfl, ?_, rfl⟩
  cases hq : st.job_queue with
  | none => rfl
  | some q => simpa [cancel_existing_job] using cancel_jobs_count q cid (job_name cid)

/-- Witness for C4: catalog `["a"]`, cursor 1, one stale job in the queue. -/
theorem fire_completed_sends_final_notice_witness :
    (send_message_job ["a"] (some 5) true
        { chat_data := [(5, ⟨none, none, none, some 1⟩)],
          job_queue := some [{ name := job_name 5, time := ⟨10, 0, DEFAULT_TZ⟩,
                               chat_id := 5, data := some 5 }] }).2
      = [((5 : Int), FINAL_NOTICE)] ∧
    jobs_named (job_name 5) ((send_message_job ["a"] (some 5) true
        { chat_data := [(5, ⟨none, none, none, some 1⟩)],
          job_queue := some [{ name := job_name 5, time := ⟨10, 0, DEFAULT_TZ⟩,
                               chat_id := 5, data := some 5 }] }).1).job_queue = 0 ∧
    ((send_message_job ["a"] (some 5) true
        { chat_data := [(5, ⟨none, none, none, some 1⟩)],
          job_queue := some [{ name := job_name 5, time := ⟨10, 0, DEFAULT_TZ⟩,
                               chat_id := 5, data := some 5 }] }).1).chat_data
      = [(5, ⟨none, none, none, some 1⟩)] := by
  have h := fire_completed_sends_final_notice ["a"]
    { chat_data := [(5, ⟨none, none, none, some 1⟩)],
      job_queue := some [{ name := job_name 5, time := ⟨10, 0, DEFAULT_TZ⟩,
                           chat_id := 5, data := some 5 }] }
    5 ⟨none, none, none, some 1⟩ 1 (by decide) rfl (by decide)
  simpa using h

/-- C5: whenever the transport send raises during a fire, the whole
`chat_data` mapping — in particular every stored cursor — is left unchanged,
for every subscriber and every fire event.  (The callback only writes
`index := idx + 1` after a returned send, so the cursor is never advanced
before the send is attempted.) -/
theorem fire_failure_preserves_cursor (msgs : List String) (jd : Option Int)
    (st : BotState) :
    ((send_message_job msgs jd false st).1).chat_data = st.chat_data := by
  cases jd with
  | none => rfl
  | some cid =>
    cases hl : lookupChat st.chat_data cid with
    | none => simp only [send_message_job, hl]
    | some store =>
      by_cases he : store = emptyChatData
      · simp only [send_message_job, hl, if_pos he]
      · by_cases hge : msgs.length ≤ store.index.getD 0 <;>
          simp [send_message_job, hl, he, hge]

/-- C9: a fire whose job data carries no chat id, or whose chat id has no
stored record, is a silent no-op: nothing is sent and the state (stores and
job queue alike) is exactly unchanged. -/
theorem fire_missing_record_noop (msgs : List String) (jd : Option Int) (ok : Bool)
    (st : BotState)
    (h : jd = none ∨ ∃ cid, jd = some cid ∧ lookupChat st.chat_data cid = none) :
    send_message_job msgs jd ok st = (st, []) := by
  rcases h with h | ⟨cid, hjd, hl⟩
  · rw [h]; rfl
  · rw [hjd]; simp only [send_message_job, hl]

/-- Witness for C9: a fire for chat 7, which has no record. -/
theorem fire_missing_record_noop_witness :
    send_message_job ["a"] (some 7) true
        { chat_data := [(5, ⟨none, none, none, some 0⟩)], job_queue := some [] }
      = ({ chat_data := [(5, ⟨none, none, none, some 0⟩)], job_queue := some [] }, []) :=
  fire_missing_record_noop ["a"] (some 7) true
    { chat_data := [(5, ⟨none, none, none, some 0⟩)], job_queue := some [] }
    (Or.inr ⟨7, rfl, by decide⟩)

/-- C10: the `start` handler applies each default with `setdefault`, so any
`tz`, `hour`, `minute` or `index` value already stored for the chat is kept
verbatim; repeating `/start` never resets configuration or progress. -/
theorem start_preserves_existing_fields (db : String → Bool) (st : BotState)
    (cid : Int) (d : ChatData) (hl : lookupChat st.chat_data cid = some d) :
    lookupChat ((start_cmd db cid st)).chat_data cid = some (start_defaults d) ∧
    (∀ v, d.tz = some v → (start_defaults d).tz = some v) ∧
    (∀ v, d.hour = some v → (start_defaults d).hour = some v) ∧
    (∀ v, d.minute = some v → (start_defaults d).minute = some v) ∧
    (∀ v, d.index = some v → (start_defaults d).index = some v) := by
  refine ⟨?_, ?_, ?_, ?_, ?_⟩
  · show lookupChat (setChat st.chat_data cid (start_defaults (getChat st.chat_data cid)))
        cid = some (start_defaults d)
    rw [lookupChat_setChat]
    simp [getChat, hl]
  · intro v hv; simp [start_defaults, hv]
  · intro v hv; simp [start_defaults, hv]
  · intro v hv; simp [start_defaults, hv]
  · intro v hv; simp [start_defaults, hv]

/-- Witness for C10: a chat with a full non-default configuration, unchanged by
`/start`. -/
theorem start_preserves_existing_fields_witness :
    lookupChat ((start_cmd (fun _ => true) 5
        { chat_data := [(5, ⟨some "UTC", some 8, some 30, some 3⟩)],
          job_queue := some [] })).chat_data 5
      = some (start_defaults ⟨some "UTC", some 8, some 30, some 3⟩) ∧
    (start_defaults (⟨some "UTC", some 8, some 30, some 3⟩ : ChatData)).tz = some "UTC" ∧
    (start_defaults (⟨some "UTC", some 8, some 30, some 3⟩ : ChatData)).hour = some 8 ∧
    (start_defaults (⟨some "UTC", some 8, some 30, some 3⟩ : ChatData)).minute = some 30 ∧
    (start_defaults (⟨some "UTC", some 8, some 30, some 3⟩ : ChatData)).index = some 3 := by
  have h := start_preserves_existing_fields (fun _ => true)
    { chat_data := [(5, ⟨some "UTC", some 8, some 30, some 3⟩)], job_queue := some [] }
    5 ⟨some "UTC", some 8, some 30, some 3⟩ (by decide)
  exact ⟨h.1, h.2.1 _ rfl, h.2.2.1 _ rfl, h.2.2.2.1 _ rfl, h.2.2.2.2 _ rfl⟩

/-- C2 counterexample: with a one-message catalog, a persisted entry whose
cursor equals the catalog length (a completed subscriber) still gets a timer
armed by the startup hook, instead of being left unscheduled: the recovery
loop has no cursor test. -/
theorem on_startup_rearms_completed_counterexample :
    (["a"] : List String).length ≤ (⟨none, none, none, some 1⟩ : ChatData).index.getD 0 ∧
    jobs_named (job_name 1) ((on_startup (fun _ => true)
        { chat_data := [(1, ⟨none, none, none, some 1⟩)],
          job_queue := some [] })).job_queue = 1 :=
  ⟨by decide, by decide⟩

/-- C2 (amended): at startup, when the job queue exists, a timer is (re)created
for every persisted subscriber entry regardless of its stored cursor — entries
with cursor at or past the catalog length are re-armed like any other. -/
theorem on_startup_schedules_every_entry (db : String → Bool) (st : BotState)
    (q : List Job) (cid : Int) (d : ChatData) (hq : st.job_queue = some q)
    (hmem : (cid, d) ∈ st.chat_data) :
    1 ≤ jobs_named (job_name cid) ((on_startup db st)).job_queue := by
  show 1 ≤ jobs_named (job_name cid) (schedule_all db st.chat_data st.job_queue)
  rw [hq]
  exact schedule_all_mem_ge db st.chat_data q cid d hmem

/-- Witness for the amended C2 at a concrete completed entry. -/
theorem on_startup_schedules_every_entry_witness :
    1 ≤ jobs_named (job_name 1) ((on_startup (fun _ => true)
        { chat_data := [(1, ⟨none, none, none, some 1⟩)],
          job_queue := some [] })).job_queue :=
  on_startup_schedules_every_entry (fun _ => true)
    { chat_data := [(1, ⟨none, none, none, some 1⟩)], job_queue := some [] }
    [] 1 ⟨none, none, none, some 1⟩ rfl (by decide)

/-- C3 counterexample: after `/start` then `/pause` — a reachable state — chat 1
has stored cursor 0, strictly below the one-entry catalog's length, yet no live
job carries its name, refuting "a timer exists iff cursor < len(catalog)". -/
theorem pause_breaks_timer_iff_counterexample :
    Reachable ["a"] (fun _ => true)
      (step ["a"] (fun _ => true) (.pause 1)
        (step ["a"] (fun _ => true) (.start 1) initState)) ∧
    lookupChat (step ["a"] (fun _ => true) (.pause 1)
        (step ["a"] (fun _ => true) (.start 1) initState)).chat_data 1
      = some ⟨some DEFAULT_TZ, some DEFAULT_HOUR, some DEFAULT_MINUTE, some 0⟩ ∧
    (0 : Nat) < (["a"] : List String).length ∧
    jobs_named (job_name 1) (step ["a"] (fun _ => true) (.pause 1)
        (step ["a"] (fun _ => true) (.start 1) initState)).job_queue = 0 :=
  ⟨Reachable.step _ (Reachable.step _ Reachable.init), by decide, by decide, by decide⟩

/-- C3 (amended): in every reachable state, every registered subscriber's
stored cursor satisfies 0 ≤ cursor ≤ len(catalog).  (The original claim's other
half — a live timer exists iff cursor < len(catalog) — fails; see the
counterexample.) -/
theorem reachable_cursor_bounds (msgs : List String) (db : String → Bool)
    (st : BotState) (h : Reachable msgs db st) (cid : Int) (d : ChatData)
    (hl : lookupChat st.chat_data cid = some d) :
    0 ≤ d.index.getD 0 ∧ d.index.getD 0 ≤ msgs.length :=
  ⟨Nat.zero_le _, reachable_cursorInv msgs db st h cid d hl⟩

/-- Witness for the amended C3 at a concrete reachable state. -/
theorem reachable_cursor_bounds_witness :
    0 ≤ (ChatData.mk (some DEFAULT_TZ) (some DEFAULT_HOUR) (some DEFAULT_MINUTE)
          (some 0)).index.getD 0 ∧
    (ChatData.mk (some DEFAULT_TZ) (some DEFAULT_HOUR) (some DEFAULT_MINUTE)
          (some 0)).index.getD 0 ≤ (["a"] : List String).length :=
  reachable_cursor_bounds ["a"] (fun _ => true)
    (step ["a"] (fun _ => true) (.start 1) initState)
    (Reachable.step _ Reachable.init) 1 _ (by decide)

/-- C6: `schedule_daily_job` removes every job carrying the subscriber's name
and only then arms one new daily job; hence one call leaves exactly one live
job with that name, a repeated call (same or different configuration) still
leaves exactly one, and any sequence of schedule calls keeps a name's count at
most one. -/
theorem schedule_daily_job_single_timer (db : String → Bool) (q : List Job)
    (cid : Int) (d d' : ChatData) (n : String) (calls : List (Int × ChatData))
    (h : jobs_named n (some q) ≤ 1) :
    schedule_daily_job db (some q) cid d
      = some (cancel_jobs q cid ++
          [{ name := job_name cid, time := get_user_time db d,
             chat_id := cid, data := some cid }]) ∧
    jobs_named (job_name cid) (schedule_daily_job db (some q) cid d) = 1 ∧
    jobs_named (job_name cid)
        (schedule_daily_job db (schedule_daily_job db (some q) cid d) cid d') = 1 ∧
    jobs_named n (schedule_all db calls (some q)) ≤ 1 := by
  refine ⟨rfl, ?_, ?_, schedule_all_count_le db calls (some q) n h⟩
  · rw [schedule_count]; simp
  · have h1 : schedule_daily_job db (some q) cid d
        = some (cancel_jobs q cid ++
            [{ name := job_name cid, time := get_user_time db d,
               chat_id := cid, data := some cid }]) := rfl
    rw [h1, schedule_count]; simp

/-- Witness for C6: two consecutive schedule calls for chat 5 on an initially
empty queue. -/
theorem schedule_daily_job_single_timer_witness :
    schedule_daily_job (fun _ => true) (some []) 5 emptyChatData
      = some (cancel_jobs [] 5 ++
          [{ name := job_name 5, time := get_user_time (fun _ => true) emptyChatData,
             chat_id := 5, data := some 5 }]) ∧
    jobs_named (job_name 5)
        (schedule_daily_job (fun _ => true) (some []) 5 emptyChatData) = 1 ∧
    jobs_named (job_name 5)
        (schedule_daily_job (fun _ => true)
          (schedule_daily_job (fun _ => true) (some []) 5 emptyChatData)
          5 emptyChatData) = 1 ∧
    jobs_named (job_name 5)
        (schedule_all (fun _ => true) [(5, emptyChatData), (5, emptyChatData)]
          (some [])) ≤ 1 :=
  schedule_daily_job_single_timer (fun _ => true) [] 5 emptyChatData emptyChatData
    (job_name 5) [(5, emptyChatData), (5, emptyChatData)] (by decide)

/-- C7: whenever the process default zone is in the timezone database,
`get_user_tz` is total: a stored (or defaulted) name accepted by the database
is returned itself, and any unknown or malformed name yields the default zone
instead of an escaping exception. -/
theorem get_user_tz_total_fallback (db : String → Bool) (d : ChatData)
    (hdef : db DEFAULT_TZ = true) :
    (get_user_tz db d).isSome = true ∧
    (db (d.tz.getD DEFAULT_TZ) = true →
        get_user_tz db d = some (d.tz.getD DEFAULT_TZ)) ∧
    (db (d.tz.getD DEFAULT_TZ) = false → get_user_tz db d = some DEFAULT_TZ) := by
  refine ⟨?_, fun hc => ?_, fun hc => ?_⟩
  · unfold get_user_tz
    cases hb : db (d.tz.getD DEFAULT_TZ) <;> simp [hb, hdef]
  · unfold get_user_tz; simp [hc]
  · unfold get_user_tz; simp [hc, hdef]

/-- Witness for C7: a malformed stored zone falls back to the default. -/
theorem get_user_tz_total_fallback_witness :
    ((fun s => s == "Europe/Minsk") DEFAULT_TZ = true) ∧
    get_user_tz (fun s => s == "Europe/Minsk") ⟨some "Not/AZone", none, none, none⟩
      = some DEFAULT_TZ :=
  ⟨by decide,
   (get_user_tz_total_fallback (fun s => s == "Europe/Minsk")
      ⟨some "Not/AZone", none, none, none⟩ (by decide)).2.2 (by decide)⟩

/-- C8: `load_messages` raises exactly when the file is missing or has no
non-blank line; when it returns, the catalog is a non-empty list whose entries
are all non-empty strings. -/
theorem load_messages_spec (file : Option (List String)) :
    ((∃ e, load_messages file = .error e) ↔
      (file = none ∨ ∀ l ∈ file.getD [], strip l = "")) ∧
    (∀ msgs, load_messages file = .ok msgs → msgs ≠ [] ∧ ∀ m ∈ msgs, m ≠ "") := by
  cases file with
  | none =>
    refine ⟨?_, ?_⟩
    · simp [load_messages]
    · intro msgs h
      simp [load_messages] at h
  | some lines =>
    by_cases hm : (lines.map strip).filter (fun s => s != "") = []
    · refine ⟨?_, ?_⟩
      · simp only [load_messages, if_pos hm, Option.getD_some]
        refine ⟨fun _ => Or.inr ?_, fun _ => ⟨"ValueError", rfl⟩⟩
        intro l hlmem
        have h2 := List.filter_eq_nil_iff.mp hm (strip l)
          (List.mem_map_of_mem strip hlmem)
        simpa using h2
      · intro msgs h
        simp only [load_messages, if_pos hm] at h
        cases h
    · refine ⟨?_, ?_⟩
      · simp only [load_messages, if_neg hm, Option.getD_some]
        constructor
        · rintro ⟨e, he⟩; cases he
        · rintro (h | h)
          · cases h
          · exfalso
            apply hm
            apply List.filter_eq_nil_iff.mpr
            intro s hs
            obtain ⟨l, hlmem, rfl⟩ := List.mem_map.mp hs
            simp [h l hlmem]
      · intro msgs h
        simp only [load_messages, if_neg hm] at h
        cases h
        refine ⟨hm, ?_⟩
        intro m hmem
        have h2 := List.of_mem_filter hmem
        simpa using h2

/-- Witness for C8: a two-line file with one blank line loads as a singleton
catalog of a non-empty string. -/
theorem load_messages_spec_witness :
    (["hi"] : List String) ≠ [] ∧ ∀ m ∈ (["hi"] : List String), m ≠ "" :=
  (load_messages_spec (some ["hi", "  "])).2 ["hi"] (by rfl)

end YearlyBot
